import Mathlib

/-!
Verification of the marketinx lead-dashboard core (`Marketing Dashboard/dashboard.py`).

The Python code is shallowly embedded: JSON-ish Python values become the
inductive `PyVal`, `datetime` objects become `PyDateTime` (ordinal day +
microsecond-of-day + optional UTC offset, matching CPython's internal
representation at the granularity the code observes), fallible Python
operations return `Except PyErr`, and caught exceptions are modelled by the
surrounding `match` on the `Except` result.  Wall-clock reads
(`datetime.now`) are modelled by an explicit clock parameter.
-/

/-- Exceptions the modelled code can raise: `ValueError` from parsing and
`datetime` construction, `TypeError` from comparing offset-naive with
offset-aware datetimes or from grouping by an unhashable key. -/
inductive PyErr where
  | valueError
  | typeError
deriving DecidableEq, Repr

/-- Python values as delivered by the Zoho JSON API and held in DataFrame
cells.  Numbers are modelled as integers (no float appears in any claim). -/
inductive PyVal where
  | none
  | bool (b : Bool)
  | num (n : Int)
  | str (s : String)
  | dict (fields : List (String × PyVal))
  | list (items : List PyVal)

mutual

/-- Python `==` on values.  Dict equality is modelled positionally (the data
in this program comes from JSON objects / dict literals with a fixed key
order, so order-insensitivity of Python dict equality is never observable),
and `True == 1` style bool/int cross-equality is not modelled (no claim
compares a bool with a number). -/
def pyEq : PyVal → PyVal → Bool
  | PyVal.none, PyVal.none => true
  | PyVal.bool a, PyVal.bool b => a == b
  | PyVal.num a, PyVal.num b => a == b
  | PyVal.str a, PyVal.str b => a == b
  | PyVal.dict a, PyVal.dict b => pyEqFields a b
  | PyVal.list a, PyVal.list b => pyEqList a b
  | _, _ => false

/-- Elementwise equality of Python lists. -/
def pyEqList : List PyVal → List PyVal → Bool
  | [], [] => true
  | x :: xs, y :: ys => pyEq x y && pyEqList xs ys
  | _, _ => false

/-- Positional equality of dict field lists. -/
def pyEqFields : List (String × PyVal) → List (String × PyVal) → Bool
  | [], [] => true
  | (k, v) :: xs, (k2, v2) :: ys => k == k2 && pyEq v v2 && pyEqFields xs ys
  | _, _ => false

end

/-- Python truthiness: `bool(v)`. -/
def truthy : PyVal → Bool
  | PyVal.none => false
  | PyVal.bool b => b
  | PyVal.num n => n != 0
  | PyVal.str s => s != ""
  | PyVal.dict fields => !fields.isEmpty
  | PyVal.list items => !items.isEmpty

/-- Whether pandas treats the cell as missing (`None` is NA for object
columns; floats, hence `NaN`, do not occur in this model). -/
def pyIsNA : PyVal → Bool
  | PyVal.none => true
  | _ => false

/-- Unhashable Python values (dicts and lists): using one as a groupby key
raises `TypeError`. -/
def pyUnhashable : PyVal → Bool
  | PyVal.dict _ => true
  | PyVal.list _ => true
  | _ => false

/-- `d.get(key, default)` on a Python dict, modelled on an association list
with unique keys (JSON objects). A key bound to `None` is present, so the
default is not used for it — exactly Python's behaviour. -/
def pyGetD (d : List (String × PyVal)) (key : String) (default : PyVal) : PyVal :=
  (d.lookup key).getD default

mutual

/-- Python `repr` of a value, used only through `pyStr` below for f-string
interpolation of non-string cells.  String escaping inside `repr` is not
modelled (no claim interpolates a string containing quotes). -/
def pyRepr : PyVal → String
  | PyVal.none => "None"
  | PyVal.bool true => "True"
  | PyVal.bool false => "False"
  | PyVal.num n => toString n
  | PyVal.str s => "\x27" ++ s ++ "\x27"
  | PyVal.dict fields => "\x7b" ++ pyReprFields fields ++ "\x7d"
  | PyVal.list items => "[" ++ pyReprList items ++ "]"

/-- Comma-joined reprs of list items. -/
def pyReprList : List PyVal → String
  | [] => ""
  | [x] => pyRepr x
  | x :: xs => pyRepr x ++ ", " ++ pyReprList xs

/-- Comma-joined reprs of dict fields. -/
def pyReprFields : List (String × PyVal) → String
  | [] => ""
  | [(k, v)] => "\x27" ++ k ++ "\x27: " ++ pyRepr v
  | (k, v) :: xs => "\x27" ++ k ++ "\x27: " ++ pyRepr v ++ ", " ++ pyReprFields xs

end

/-- Python `str(v)`, as used by f-string interpolation. -/
def pyStr : PyVal → String
  | PyVal.str s => s
  | v => pyRepr v

/-- Python `s.strip()`: drops whitespace from both ends. -/
def pyStrip (s : String) : String :=
  ⟨((s.data.dropWhile Char.isWhitespace).reverse.dropWhile Char.isWhitespace).reverse⟩

/-- Python `s.replace(c, r)` for a single-character pattern (the only form
the source uses: `.replace('Z', '+00:00')`). -/
def pyReplace1 (s : String) (c : Char) (r : String) : String :=
  ⟨s.data.flatMap (fun x => if x = c then r.data else [x])⟩

/-- A raw lead as returned by the Zoho API: a JSON object. -/
abbrev RawLead := List (String × PyVal)

/-! ## Calendar arithmetic (faithful to `datetime.date.toordinal`) -/

/-- Gregorian leap-year test. -/
def isLeap (y : Nat) : Bool :=
  y % 4 == 0 && (y % 100 != 0 || y % 400 == 0)

/-- Length of month `m` in year `y` (months are 1-based). -/
def daysInMonth (y m : Nat) : Nat :=
  if m == 2 then (if isLeap y then 29 else 28)
  else if m == 4 || m == 6 || m == 9 || m == 11 then 30
  else 31

/-- Days in all years strictly before year `y` (proleptic Gregorian). -/
def daysBeforeYear (y : Nat) : Nat :=
  (y - 1) * 365 + (y - 1) / 4 - (y - 1) / 100 + (y - 1) / 400

/-- Days in year `y` strictly before month `m`. -/
def daysBeforeMonth (y m : Nat) : Nat :=
  (match m with
   | 1 => 0 | 2 => 31 | 3 => 59 | 4 => 90 | 5 => 120 | 6 => 151
   | 7 => 181 | 8 => 212 | 9 => 243 | 10 => 273 | 11 => 304 | _ => 334)
  + (if 2 < m && isLeap y then 1 else 0)

/-- `date(y, m, d).toordinal()`: day number with 0001-01-01 ↦ 1. -/
def dateOrdinal (y m d : Nat) : Int :=
  ((daysBeforeYear y + daysBeforeMonth y m + d : Nat) : Int)

/-- Microseconds in a day. -/
def dayMicros : Nat := 86400000000

/-- A CPython `datetime`: calendar date as its ordinal, wall-clock time of
day in microseconds, and for aware datetimes the UTC offset in minutes
(`tz = Option.none` means offset-naive). -/
structure PyDateTime where
  days : Int
  tod : Nat
  tz : Option Int
deriving DecidableEq, Repr

/-- Wall-clock microseconds since the epoch of ordinal 0, ignoring the
offset — the quantity Python compares for two naive datetimes. -/
def PyDateTime.wallMicros (d : PyDateTime) : Int :=
  d.days * (dayMicros : Int) + (d.tod : Int)

/-- `dt - timedelta(microseconds = m)`: shifts the wall-clock fields,
keeping the tzinfo, exactly like CPython timedelta arithmetic. -/
def PyDateTime.subMicros (d : PyDateTime) (m : Int) : PyDateTime :=
  let t := d.wallMicros - m
  { days := t / (dayMicros : Int) - (if t % (dayMicros : Int) < 0 then 1 else 0),
    tod := (t.emod (dayMicros : Int)).toNat,
    tz := d.tz }

/-- Python `a <= b` on datetimes: naive pairs compare by wall clock, aware
pairs compare by UTC instant, and a mixed pair raises `TypeError`. -/
def pyLE (a b : PyDateTime) : Except PyErr Bool :=
  match a.tz, b.tz with
  | Option.none, Option.none => .ok (decide (a.wallMicros ≤ b.wallMicros))
  | some oa, some ob =>
      .ok (decide (a.wallMicros - oa * 60000000 ≤ b.wallMicros - ob * 60000000))
  | _, _ => .error .typeError

/-- Python `a >= b` on datetimes. -/
def pyGE (a b : PyDateTime) : Except PyErr Bool := pyLE b a

/-! ## Timestamp parsing

`datetime.fromisoformat` is modelled on the grammar CPython (< 3.11)
accepts as the inverse of `isoformat()`:
`YYYY-MM-DD[*HH[:MM[:SS[.fff[fff]]]][±HH:MM]]` (the 11th character is an
unchecked separator, and the time string is split at the first `+`/`-`).
`strptime` with the fixed pattern `"%Y-%m-%dT%H:%M:%S%z"` additionally
accepts `Z` and colon-less `±HHMM` offsets.  Both validate calendar and
clock ranges exactly as the CPython constructors do and signal failure with
`ValueError`. -/

/-- Decimal digit value of a character, if it is a digit. -/
def dChar (c : Char) : Option Nat :=
  if c.isDigit then some (c.toNat - 48) else Option.none

/-- Two-digit number. -/
def parseTwo (a b : Char) : Option Nat :=
  match dChar a, dChar b with
  | some x, some y => some (10 * x + y)
  | _, _ => Option.none

/-- Four-digit number. -/
def parseFour (a b c d : Char) : Option Nat :=
  match parseTwo a b, parseTwo c d with
  | some x, some y => some (100 * x + y)
  | _, _ => Option.none

/-- Fractional-second part of an ISO time: exactly 3 or 6 digits, scaled to
microseconds. -/
def parseFracIso : List Char → Option Nat
  | [a, b, c] =>
      match parseTwo a b, dChar c with
      | some x, some y => some ((10 * x + y) * 1000)
      | _, _ => Option.none
  | [a, b, c, d, e, f] =>
      match parseFour a b c d, parseTwo e f with
      | some x, some y => some (x * 100 + y)
      | _, _ => Option.none
  | _ => Option.none

/-- UTC offset of an ISO string: `±HH:MM`, total magnitude under 24 hours
(the `timezone` constructor's requirement), in minutes. -/
def parseTzIso : List Char → Option Int
  | sign :: h1 :: h2 :: ':' :: m1 :: m2 :: [] =>
      if sign == '+' || sign == '-' then
        match parseTwo h1 h2, parseTwo m1 m2 with
        | some hh, some mm =>
            if hh * 60 + mm < 1440 then
              some ((if sign == '-' then (-1 : Int) else 1) * (hh * 60 + mm : Nat))
            else Option.none
        | _, _ => Option.none
      else Option.none
  | _ => Option.none

/-- Splits a time string at the first `+` or `-` (how CPython separates the
clock part from the offset part). -/
def splitAtSign : List Char → List Char × List Char
  | [] => ([], [])
  | c :: cs =>
      if c == '+' || c == '-' then ([], c :: cs)
      else
        let (a, b) := splitAtSign cs
        (c :: a, b)

/-- Clock part `HH[:MM[:SS[.fff[fff]]]]` of an ISO time, as
(time-of-day in microseconds), validating `hour ≤ 23`, `minute ≤ 59`,
`second ≤ 59`. -/
def parseClockIso : List Char → Option Nat
  | [h1, h2] =>
      match parseTwo h1 h2 with
      | some hh => if hh ≤ 23 then some (hh * 3600000000) else Option.none
      | _ => Option.none
  | [h1, h2, ':', m1, m2] =>
      match parseTwo h1 h2, parseTwo m1 m2 with
      | some hh, some mm =>
          if hh ≤ 23 && mm ≤ 59 then some ((hh * 60 + mm) * 60000000) else Option.none
      | _, _ => Option.none
  | h1 :: h2 :: ':' :: m1 :: m2 :: ':' :: s1 :: s2 :: rest =>
      match parseTwo h1 h2, parseTwo m1 m2, parseTwo s1 s2 with
      | some hh, some mm, some ss =>
          if hh ≤ 23 && mm ≤ 59 && ss ≤ 59 then
            match rest with
            | [] => some (((hh * 60 + mm) * 60 + ss) * 1000000)
            | '.' :: frac =>
                match parseFracIso frac with
                | some us => some (((hh * 60 + mm) * 60 + ss) * 1000000 + us)
                | _ => Option.none
            | _ => Option.none
          else Option.none
      | _, _, _ => Option.none
  | _ => Option.none

/-- Time-of-day and offset of the ISO time string following the separator. -/
def parseTimeIso (cs : List Char) : Option (Nat × Option Int) :=
  let (clockPart, tzPart) := splitAtSign cs
  match parseClockIso clockPart with
  | some tod =>
      match tzPart with
      | [] => some (tod, Option.none)
      | _ =>
          match parseTzIso tzPart with
          | some off => some (tod, some off)
          | _ => Option.none
  | _ => Option.none

/-- `datetime.fromisoformat` (CPython < 3.11 grammar; in particular a bare
trailing `Z` is rejected, which is why the source substitutes it away). -/
def fromisoformat (s : String) : Except PyErr PyDateTime :=
  match s.toList with
  | y1 :: y2 :: y3 :: y4 :: '-' :: m1 :: m2 :: '-' :: d1 :: d2 :: rest =>
      match parseFour y1 y2 y3 y4, parseTwo m1 m2, parseTwo d1 d2 with
      | some y, some mo, some dd =>
          if 1 ≤ y && 1 ≤ mo && mo ≤ 12 && 1 ≤ dd && dd ≤ daysInMonth y mo then
            match rest with
            | [] => .ok { days := dateOrdinal y mo dd, tod := 0, tz := Option.none }
            | _sep :: t =>
                match parseTimeIso t with
                | some (tod, tz) => .ok { days := dateOrdinal y mo dd, tod := tod, tz := tz }
                | _ => .error .valueError
          else .error .valueError
      | _, _, _ => .error .valueError
  | _ => .error .valueError

/-- The `%z` directive of `strptime`: `Z`, `±HH:MM` or `±HHMM`, magnitude
under 24 hours, in minutes. -/
def parseTzStrptime : List Char → Option Int
  | ['Z'] => some 0
  | [sign, h1, h2, ':', m1, m2] =>
      if sign == '+' || sign == '-' then
        match parseTwo h1 h2, parseTwo m1 m2 with
        | some hh, some mm =>
            if hh * 60 + mm < 1440 then
              some ((if sign == '-' then (-1 : Int) else 1) * (hh * 60 + mm : Nat))
            else Option.none
        | _, _ => Option.none
      else Option.none
  | [sign, h1, h2, m1, m2] =>
      if sign == '+' || sign == '-' then
        match parseTwo h1 h2, parseTwo m1 m2 with
        | some hh, some mm =>
            if hh * 60 + mm < 1440 then
              some ((if sign == '-' then (-1 : Int) else 1) * (hh * 60 + mm : Nat))
            else Option.none
        | _, _ => Option.none
      else Option.none
  | _ => Option.none

/-- `datetime.strptime(s, "%Y-%m-%dT%H:%M:%S%z")` (two-digit fields, as all
inputs in this program are; the offset directive is mandatory, so the
result is always aware). -/
def strptime_tz (s : String) : Except PyErr PyDateTime :=
  match s.toList with
  | y1 :: y2 :: y3 :: y4 :: '-' :: m1 :: m2 :: '-' :: d1 :: d2 :: 'T' ::
    h1 :: h2 :: ':' :: mi1 :: mi2 :: ':' :: s1 :: s2 :: rest =>
      match parseFour y1 y2 y3 y4, parseTwo m1 m2, parseTwo d1 d2,
            parseTwo h1 h2, parseTwo mi1 mi2, parseTwo s1 s2 with
      | some y, some mo, some dd, some hh, some mm, some ss =>
          if 1 ≤ y && 1 ≤ mo && mo ≤ 12 && 1 ≤ dd && dd ≤ daysInMonth y mo &&
             hh ≤ 23 && mm ≤ 59 && ss ≤ 59 then
            match parseTzStrptime rest with
            | some off =>
                .ok { days := dateOrdinal y mo dd,
                      tod := ((hh * 60 + mm) * 60 + ss) * 1000000,
                      tz := some off }
            | _ => .error .valueError
          else .error .valueError
      | _, _, _, _, _, _ => .error .valueError
  | _ => .error .valueError

/-! ## Lead normalization (`process_leads_data`, dashboard.py lines 174-205) -/

/-- One row of the processed DataFrame (the normalized lead shape).
`fullName` is a `String` because the source builds it with an f-string;
every other cell carries the raw Python value. -/
structure Row where
  id : PyVal
  firstName : PyVal
  lastName : PyVal
  fullName : String
  email : PyVal
  phone : PyVal
  company : PyVal
  leadOwner : PyVal
  leadStatus : PyVal
  leadSource : PyVal
  createdTime : PyVal
  rating : PyVal
  description : PyVal

/-- Owner resolution of `process_leads_data` (lines 179-187): a dict yields
`owner_obj.get('name', 'Unassigned')`, a truthy string yields itself, an
empty string or anything else yields `'Unassigned'`. -/
def resolve_owner (owner_obj : PyVal) : PyVal :=
  match owner_obj with
  | PyVal.dict d => pyGetD d "name" (PyVal.str "Unassigned")
  | PyVal.str s => if s == "" then PyVal.str "Unassigned" else PyVal.str s
  | _ => PyVal.str "Unassigned"

/-- Normalization of a single raw lead into a row (the dict literal at
lines 189-203; `lead.get('Owner')` returns `None` for an absent key). -/
def process_lead (lead : RawLead) : Row :=
  { id := pyGetD lead "id" (PyVal.str "N/A"),
    firstName := pyGetD lead "First_Name" (PyVal.str ""),
    lastName := pyGetD lead "Last_Name" (PyVal.str ""),
    fullName := pyStrip (pyStr (pyGetD lead "First_Name" (PyVal.str "")) ++ " " ++
                 pyStr (pyGetD lead "Last_Name" (PyVal.str ""))),
    email := pyGetD lead "Email" (PyVal.str "N/A"),
    phone := pyGetD lead "Phone" (PyVal.str "N/A"),
    company := pyGetD lead "Company" (PyVal.str "N/A"),
    leadOwner := resolve_owner (pyGetD lead "Owner" PyVal.none),
    leadStatus := pyGetD lead "Lead_Status" (PyVal.str "No Status"),
    leadSource := pyGetD lead "Lead_Source" (PyVal.str "No Source"),
    createdTime := pyGetD lead "Created_Time" (PyVal.str "N/A"),
    rating := pyGetD lead "Rating" (PyVal.str "N/A"),
    description := pyGetD lead "Description" (PyVal.str "") }

/-- `process_leads_data`: the processed DataFrame as the list of its rows. -/
def process_leads_data (leads : List RawLead) : List Row :=
  leads.map process_lead

/-- A row viewed as a record again (the dict keys of the literal at lines
189-203, in source order) — the shape a "re-normalization" would consume. -/
def rowToDict (r : Row) : RawLead :=
  [("ID", r.id), ("First Name", r.firstName), ("Last Name", r.lastName),
   ("Full Name", PyVal.str r.fullName), ("Email", r.email), ("Phone", r.phone),
   ("Company", r.company), ("Lead Owner", r.leadOwner),
   ("Lead Status", r.leadStatus), ("Lead Source", r.leadSource),
   ("Created Time", r.createdTime), ("Rating", r.rating),
   ("Description", r.description)]

/-! ## Client-side date-range filter
(`fetch_leads_by_date_range_client`, lines 153-172) -/

/-- The per-lead decision of the filter loop: a falsy `Created_Time` never
reaches the `append`; a parse failure (`ValueError`, or `AttributeError`
from `.replace` on a non-string) is caught and the lead appended; a parsed
timestamp is kept iff its date lies in `[start_date, end_date]` (dates as
ordinals). -/
def keep_lead (lead : RawLead) (start_date end_date : Int) : Bool :=
  let created_time_str := pyGetD lead "Created_Time" (PyVal.str "")
  if truthy created_time_str then
    match created_time_str with
    | PyVal.str s =>
        match fromisoformat (pyReplace1 s 'Z' "+00:00") with
        | .ok created_time =>
            decide (start_date ≤ created_time.days) && decide (created_time.days ≤ end_date)
        | .error _ => true
    | _ => true
  else false

/-- `fetch_leads_by_date_range_client`: the append loop is order- and
multiplicity-preserving, i.e. a filter. -/
def fetch_leads_by_date_range_client (all_leads : List RawLead)
    (start_date end_date : Int) : List RawLead :=
  all_leads.filter (fun lead => keep_lead lead start_date end_date)

/-! ## Recency classification (`parse_created_time` lines 213-226,
`is_new_lead` lines 229-251, custom branch lines 707-718) -/

/-- `parse_created_time`: falsy input short-circuits to `None`; otherwise
three parse attempts in order, every failure caught, non-string input
failing all three attempts with `TypeError`/`AttributeError`. -/
def parse_created_time (created_time_str : PyVal) : Option PyDateTime :=
  if truthy created_time_str then
    match created_time_str with
    | PyVal.str s =>
        match fromisoformat (pyReplace1 s 'Z' "+00:00") with
        | .ok d => some d
        | .error _ =>
            match strptime_tz s with
            | .ok d => some d
            | .error _ =>
                match fromisoformat s with
                | .ok d => some d
                | .error _ => Option.none
    | _ => Option.none
  else Option.none

/-- `is_new_lead`.  The wall clock is the explicit parameter `nowAt`:
`nowAt (some o)` models `datetime.now(tz)` for offset `o` (the zone of the
lead's own timestamp, line 239) and `nowAt Option.none` models the naive
`datetime.now()`.  The `yesterday_after_6pm` window builds its bounds with
`datetime.combine`, which yields naive datetimes, so the chained comparison
`start <= created_dt <= end` goes through `pyLE` and can raise. -/
def is_new_lead (created_dt : Option PyDateTime) (window : String)
    (nowAt : Option Int → PyDateTime) : Except PyErr Bool :=
  match created_dt with
  | Option.none => .ok false
  | some cdt =>
    let now := nowAt cdt.tz
    if window = "today" then .ok (decide (cdt.days = now.days))
    else if window = "last_24" then pyGE cdt (now.subMicros (24 * 3600 * 1000000))
    else if window = "yesterday_after_6pm" then
      let yesterday : Int := (now.subMicros ((dayMicros : Nat) : Int)).days
      let start : PyDateTime := { days := yesterday, tod := 18 * 3600 * 1000000, tz := Option.none }
      let endOfDay : PyDateTime := { days := yesterday, tod := dayMicros - 1, tz := Option.none }
      match pyLE start cdt with
      | .error e => .error e
      | .ok b => if b then pyLE cdt endOfDay else .ok false
    else .ok false

/-- The `custom` window handled outside `is_new_lead` (lines 711-716): an
unparsed timestamp is not new, otherwise the date must lie in the chosen
interval. -/
def classify_custom (cdt : Option PyDateTime) (custom_start custom_end : Int) : Bool :=
  match cdt with
  | Option.none => false
  | some d => decide (custom_start ≤ d.days) && decide (d.days ≤ custom_end)

/-! ## Manual-lead merge (lines 699-705) -/

/-- `owner_df = df[df['Lead Owner'] == owner_selected]` followed by
`pd.concat([manual_owner, owner_df])` when the manual store is non-empty.
The manual store is concatenated whole — it is not filtered by owner. -/
def merge_owner_leads (manual_leads : List Row) (df : List Row) (owner_selected : PyVal) :
    List Row :=
  let owner_df := df.filter (fun r => pyEq r.leadOwner owner_selected)
  if manual_leads.isEmpty then owner_df else manual_leads ++ owner_df

/-! ## Aggregation (`groupby(...).agg({'ID': 'count'})`, lines 437-441 and
495-499) -/

/-- Distinct values in first-occurrence order under Python equality
(pandas sorts group keys for display; the order of groups is irrelevant to
every counted quantity, so first-occurrence order stands in for it). -/
def dedupPy : List PyVal → List PyVal
  | [] => []
  | k :: ks => k :: dedupPy (ks.filter (fun v => !pyEq v k))
termination_by l => l.length
decreasing_by
  simp only [List.length_cons]
  exact Nat.lt_succ_of_le (List.length_filter_le _ _)

/-- `df.groupby(dim).agg({'ID': 'count'})`: grouping by an unhashable key
raises `TypeError`; rows whose key is NA are dropped (`dropna=True`); each
group reports the count of its non-NA `ID` cells. -/
def group_counts (rows : List Row) (dim : Row → PyVal) :
    Except PyErr (List (PyVal × Nat)) :=
  if rows.any (fun r => pyUnhashable (dim r)) then .error .typeError
  else
    let kept := rows.filter (fun r => !pyIsNA (dim r))
    let keys := dedupPy (kept.map dim)
    .ok (keys.map (fun k =>
      (k, (kept.filter (fun r => pyEq (dim r) k && !pyIsNA r.id)).length)))

/-! ## Paginated fetch (`fetch_all_leads`, lines 58-116) -/

/-- One page of the lead-collection endpoint as the fetch loop observes it:
HTTP status, the `data` array (`leads_data.get('data', [])`) and the
`info.more_records` flag (`info.get('more_records', False)`). -/
structure Page where
  status : Nat
  data : List RawLead
  more_records : Bool

/-- The `while True` pagination loop, fuel-indexed: `Option.none` means the
fuel ran out (the loop did not terminate within `fuel` requests).  The
`Bool` of the result records whether the non-2xx branch reported an error
(`st.error`) before breaking. -/
def fetchLoop (server : Nat → Page) : Nat → Nat → List RawLead →
    Option (List RawLead × Bool)
  | 0, _, _ => Option.none
  | Nat.succ fuel, page, all_leads =>
    let resp := server page
    if resp.status ≠ 200 then some (all_leads, true)
    else if resp.data.isEmpty then some (all_leads, false)
    else if resp.more_records then fetchLoop server fuel (page + 1) (all_leads ++ resp.data)
    else some (all_leads ++ resp.data, false)

/-- `fetch_all_leads`: the loop starts at page 1 with an empty accumulator. -/
def fetch_all_leads (server : Nat → Page) (fuel : Nat) : Option (List RawLead × Bool) :=
  fetchLoop server fuel 1 []

/-- Page `p` lets the loop continue: 200 status, non-empty `data`, and the
server reports more records. -/
def pageOk (server : Nat → Page) (p : Nat) : Prop :=
  (server p).status = 200 ∧ (server p).data.isEmpty = false ∧ (server p).more_records = true

instance (server : Nat → Page) (p : Nat) : Decidable (pageOk server p) := by
  unfold pageOk; infer_instance

/-- Concatenated `data` arrays of pages `1..n`. -/
def pagesData (server : Nat → Page) (n : Nat) : List RawLead :=
  (List.range' 1 n).flatMap (fun p => (server p).data)

/-! ## Claims -/

/-- Claim C1, counterexample: a structured Owner whose `name` sub-field is
present but empty resolves to the empty string, not to `"Unassigned"` —
the normalized owner display name can be empty, contradicting the claim
that the display-name sub-field defaults to `"Unassigned"` when empty and
that the result is never the empty string. -/
theorem c1_owner_resolution_counterexample :
    (process_lead [("Owner", PyVal.dict [("name", PyVal.str "")])]).leadOwner = PyVal.str ""
    ∧ PyVal.str "" ≠ PyVal.str "Unassigned" := by
  refine ⟨rfl, ?_⟩
  intro h
  injection h with h2
  exact absurd h2 (by decide)

/-- Claim C1 as amended, case by case over the shape of the Owner value:
a structured object whose `name` key is present resolves to that sub-field
verbatim (even when it is empty or not a string); a structured object
without a `name` key resolves to `"Unassigned"`; a non-empty plain string
resolves to itself; the empty string resolves to `"Unassigned"`; and every
non-dict non-string value resolves to `"Unassigned"`.  The default applies
only when the `name` key is absent, so the result can be the empty
string. -/
theorem c1_owner_resolution_amended (ow : PyVal) :
    (∀ d v, ow = PyVal.dict d → d.lookup "name" = some v → resolve_owner ow = v)
    ∧ (∀ d, ow = PyVal.dict d → d.lookup "name" = Option.none →
        resolve_owner ow = PyVal.str "Unassigned")
    ∧ (∀ s, ow = PyVal.str s → s ≠ "" → resolve_owner ow = PyVal.str s)
    ∧ (ow = PyVal.str "" → resolve_owner ow = PyVal.str "Unassigned")
    ∧ ((∀ d, ow ≠ PyVal.dict d) → (∀ s, ow ≠ PyVal.str s) →
        resolve_owner ow = PyVal.str "Unassigned") := by
  refine ⟨?_, ?_, ?_, ?_, ?_⟩
  · intro d v hd hv
    subst hd
    simp [resolve_owner, pyGetD, hv]
  · intro d hd hv
    subst hd
    simp [resolve_owner, pyGetD, hv]
  · intro s hs hne
    subst hs
    simp [resolve_owner, hne]
  · intro hs
    subst hs
    rfl
  · intro hd hs
    cases ow with
    | dict d => exact absurd rfl (hd d)
    | str s => exact absurd rfl (hs s)
    | none => rfl
    | bool b => rfl
    | num n => rfl
    | list l => rfl

/-- Witness for C1 as amended, touching every case: a present `name` (also
the resolved value of the counterexample's empty name stays verbatim via
the same case), an absent `name`, a non-empty plain string, and a null
owner. -/
theorem c1_owner_resolution_amended_witness :
    resolve_owner (PyVal.dict [("name", PyVal.str "Preeti Verma")]) = PyVal.str "Preeti Verma"
    ∧ resolve_owner (PyVal.dict [("id", PyVal.str "7")]) = PyVal.str "Unassigned"
    ∧ resolve_owner (PyVal.str "Alice") = PyVal.str "Alice"
    ∧ resolve_owner PyVal.none = PyVal.str "Unassigned" :=
  ⟨(c1_owner_resolution_amended (PyVal.dict [("name", PyVal.str "Preeti Verma")])).1
      _ _ rfl rfl,
   (c1_owner_resolution_amended (PyVal.dict [("id", PyVal.str "7")])).2.1 _ rfl rfl,
   (c1_owner_resolution_amended (PyVal.str "Alice")).2.2.1 _ rfl (by decide),
   (c1_owner_resolution_amended PyVal.none).2.2.2.2
      (fun d h => PyVal.noConfusion h) (fun s h => PyVal.noConfusion h)⟩

/-- Claim C4, counterexample: the merge prepends the whole manual store,
so a manual entry whose owner is `"Alice"` appears in the merge for owner
`"Bob"` — manual entries belonging to other owners are not excluded. -/
theorem c4_merge_counterexample :
    merge_owner_leads [process_lead [("Owner", PyVal.str "Alice")]] [] (PyVal.str "Bob")
      = [process_lead [("Owner", PyVal.str "Alice")]]
    ∧ (process_lead [("Owner", PyVal.str "Alice")]).leadOwner = PyVal.str "Alice"
    ∧ PyVal.str "Alice" ≠ PyVal.str "Bob" := by
  refine ⟨rfl, rfl, ?_⟩
  intro h
  injection h with h2
  exact absurd h2 (by decide)

/-- Claim C4 as amended: the merge returns the manual store's entries — all
of them, for every owner, in insertion order — followed by the normalized
leads whose owner equals the given owner.  (When every manual entry belongs
to that owner, this is the claimed manual-first concatenation: 2 manual
entries plus 3 matching normalized entries yield a 5-element sequence with
the 2 manual entries first.) -/
theorem c4_merge_amended (manual_leads df : List Row) (owner_selected : PyVal) :
    merge_owner_leads manual_leads df owner_selected
      = manual_leads ++ df.filter (fun r => pyEq r.leadOwner owner_selected) := by
  unfold merge_owner_leads
  cases manual_leads with
  | nil => simp
  | cons a l => simp

/-- Claim C5, counterexample: normalization is not idempotent — the
normalized row of the lead `{'id': '123'}` re-normalizes to a different row
(the raw key is `id`, the normalized column is `ID`, so the identifier
collapses to the `'N/A'` sentinel on the second pass). -/
theorem c5_idempotence_counterexample :
    process_lead (rowToDict (process_lead [("id", PyVal.str "123")]))
      ≠ process_lead [("id", PyVal.str "123")] := by
  intro h
  have h2 : PyVal.str "N/A" = PyVal.str "123" := congrArg Row.id h
  injection h2 with h3
  exact absurd h3 (by decide)

/-- Claim C5 as amended: re-normalizing a normalized row preserves exactly
the five fields whose raw and normalized key names coincide (Email, Phone,
Company, Rating, Description) and resets every other field to its
normalization default, because normalization reads the raw Zoho key names
(`id`, `First_Name`, `Owner`, ...) which the normalized row no longer
carries.  Idempotence holds only for rows already equal to these defaults
in the reset fields. -/
theorem c5_idempotence_amended (r : Row) :
    process_lead (rowToDict r) =
      { r with id := PyVal.str "N/A", firstName := PyVal.str "", lastName := PyVal.str "",
               fullName := "", leadOwner := PyVal.str "Unassigned",
               leadStatus := PyVal.str "No Status", leadSource := PyVal.str "No Source",
               createdTime := PyVal.str "N/A" } := rfl

/-- Claim C3: the recency classifier is claimed never to raise, but a
timezone-suffixed creation timestamp (the format Zoho itself delivers and
the code's own `strptime` pattern expects) parses to an offset-aware
datetime, and under the `yesterday_after_6pm` policy the window bounds are
built offset-naive, so the comparison `start <= created_dt` raises
`TypeError` — for every wall-clock value. -/
theorem c3_recency_crash (nowAt : Option Int → PyDateTime) :
    is_new_lead (parse_created_time (PyVal.str "2025-01-01T19:00:00+00:00"))
        "yesterday_after_6pm" nowAt = .error .typeError := rfl

/-- Claim C10: for a parsed (non-null) timestamp, every window string other
than the three recognized ones falls through to the final `return False` —
in particular `custom` and arbitrary unrecognized policy names yield
not-new rather than an error, for every wall clock. -/
theorem c10_default_branch (dt : PyDateTime) (nowAt : Option Int → PyDateTime)
    (window : String) (h1 : window ≠ "today") (h2 : window ≠ "last_24")
    (h3 : window ≠ "yesterday_after_6pm") :
    is_new_lead (some dt) window nowAt = .ok false := by
  unfold is_new_lead
  simp [h1, h2, h3]

/-- Witness for C10 at the concrete window `"custom"`. -/
theorem c10_default_branch_witness :
    is_new_lead (some { days := 0, tod := 0, tz := Option.none }) "custom"
        (fun _ => { days := 0, tod := 0, tz := Option.none }) = .ok false :=
  c10_default_branch _ _ _ (by decide) (by decide) (by decide)

/-- Claim C2, counterexample: a lead with no creation timestamp at all
cannot be dated, yet the filter drops it — the falsy-check guard
`if created_time_str:` means such a lead never reaches the append, for any
interval.  The claimed unconditional inclusion fails for absent (and
equally for empty-string) timestamps. -/
theorem c2_fail_open_counterexample :
    fetch_leads_by_date_range_client [[("id", PyVal.str "x")]] 0 0 = [] := rfl

/-- Claim C2 as amended: the filter fails open only for truthy timestamp
values — a lead whose `Created_Time` is a non-empty string that fails to
parse is included unconditionally, as is a truthy non-string value (whose
`.replace` raises the caught `AttributeError`); but a lead whose
`Created_Time` is absent, `None`, or the empty string is always excluded,
regardless of the bounds. -/
theorem c2_fail_open_amended (lead : RawLead) (start_date end_date : Int) :
    (truthy (pyGetD lead "Created_Time" (PyVal.str "")) = false →
      keep_lead lead start_date end_date = false)
    ∧ (∀ s, pyGetD lead "Created_Time" (PyVal.str "") = PyVal.str s → s ≠ "" →
        fromisoformat (pyReplace1 s 'Z' "+00:00") = .error .valueError →
        keep_lead lead start_date end_date = true)
    ∧ (truthy (pyGetD lead "Created_Time" (PyVal.str "")) = true →
        (∀ s, pyGetD lead "Created_Time" (PyVal.str "") ≠ PyVal.str s) →
        keep_lead lead start_date end_date = true) := by
  refine ⟨?_, ?_, ?_⟩
  · intro h
    simp [keep_lead, h]
  · intro s hs hne hparse
    have ht : truthy (PyVal.str s) = true := by simp [truthy, hne]
    simp [keep_lead, hs, ht, hparse]
  · intro ht hnostr
    cases hv : pyGetD lead "Created_Time" (PyVal.str "") with
    | str s => exact absurd hv (hnostr s)
    | none => rw [hv] at ht; exact Bool.noConfusion ht
    | bool b => rw [hv] at ht; simp [keep_lead, hv, ht]
    | num n => rw [hv] at ht; simp [keep_lead, hv, ht]
    | dict d => rw [hv] at ht; simp [keep_lead, hv, ht]
    | list l => rw [hv] at ht; simp [keep_lead, hv, ht]

/-- Witness for C2 as amended: the unparseable string `"not-a-date"` is
included for the degenerate interval `[0, 0]`; the empty timestamp is
excluded even for a wide interval. -/
theorem c2_fail_open_amended_witness :
    keep_lead [("Created_Time", PyVal.str "not-a-date")] 0 0 = true
    ∧ keep_lead [("Created_Time", PyVal.str "")] 5 9 = false := by
  refine ⟨?_, ?_⟩
  · exact (c2_fail_open_amended _ 0 0).2.1 "not-a-date" rfl (by decide) rfl
  · exact (c2_fail_open_amended _ 5 9).1 (by decide)

/-- Claim C6: for a lead whose creation timestamp parses (after the
`Z → +00:00` substitution), the date filter keeps it exactly when the
timestamp's date ordinal lies in the inclusive interval
`[start_date, end_date]`. -/
theorem c6_date_filter_inclusive (lead : RawLead) (start_date end_date : Int)
    (s : String) (dt : PyDateTime)
    (h1 : pyGetD lead "Created_Time" (PyVal.str "") = PyVal.str s)
    (h2 : fromisoformat (pyReplace1 s 'Z' "+00:00") = .ok dt) :
    keep_lead lead start_date end_date = true ↔
      (start_date ≤ dt.days ∧ dt.days ≤ end_date) := by
  have hne : s ≠ "" := by
    intro h
    subst h
    rw [show fromisoformat (pyReplace1 "" 'Z' "+00:00") = Except.error PyErr.valueError
        from rfl] at h2
    exact Except.noConfusion h2
  have ht : truthy (PyVal.str s) = true := by simp [truthy, hne]
  simp [keep_lead, h1, ht, h2]

/-- Witness for C6: a lead created `2024-01-15T23:59:59Z` is included in
`[2024-01-01, 2024-01-15]` (its date is exactly the end bound) and excluded
from `[2024-01-02, 2024-01-14]` (one day outside the end bound). -/
theorem c6_date_filter_inclusive_witness :
    keep_lead [("Created_Time", PyVal.str "2024-01-15T23:59:59Z")]
        (dateOrdinal 2024 1 1) (dateOrdinal 2024 1 15) = true
    ∧ keep_lead [("Created_Time", PyVal.str "2024-01-15T23:59:59Z")]
        (dateOrdinal 2024 1 2) (dateOrdinal 2024 1 14) = false := by
  refine ⟨?_, ?_⟩
  · exact (c6_date_filter_inclusive [("Created_Time", PyVal.str "2024-01-15T23:59:59Z")]
      (dateOrdinal 2024 1 1) (dateOrdinal 2024 1 15) "2024-01-15T23:59:59Z"
      { days := dateOrdinal 2024 1 15, tod := 86399000000, tz := some 0 }
      rfl rfl).mpr (by decide)
  · have h := c6_date_filter_inclusive
      [("Created_Time", PyVal.str "2024-01-15T23:59:59Z")]
      (dateOrdinal 2024 1 2) (dateOrdinal 2024 1 14) "2024-01-15T23:59:59Z"
      { days := dateOrdinal 2024 1 15, tod := 86399000000, tz := some 0 }
      rfl rfl
    exact Bool.eq_false_iff.mpr (fun hk => absurd (h.mp hk) (by decide))

/-- Claim C9: `parse_created_time` is total (an `Option`, never an
exception) and tries exactly the claimed fallback chain: the ISO parse of
the `Z → +00:00` substituted string first; on its failure the fixed
`strptime` pattern; on its failure the bare ISO parse; a falsy or
non-string input yields `None`. -/
theorem c9_parse_fallback (v : PyVal) :
    (truthy v = false → parse_created_time v = Option.none)
    ∧ (∀ s d, v = PyVal.str s → fromisoformat (pyReplace1 s 'Z' "+00:00") = .ok d →
        parse_created_time v = some d)
    ∧ (∀ s d, v = PyVal.str s →
        fromisoformat (pyReplace1 s 'Z' "+00:00") = .error .valueError →
        strptime_tz s = .ok d → parse_created_time v = some d)
    ∧ (∀ s, v = PyVal.str s →
        fromisoformat (pyReplace1 s 'Z' "+00:00") = .error .valueError →
        strptime_tz s = .error .valueError →
        parse_created_time v = (fromisoformat s).toOption)
    ∧ (truthy v = true → (∀ s, v ≠ PyVal.str s) → parse_created_time v = Option.none) := by
  refine ⟨?_, ?_, ?_, ?_, ?_⟩
  · intro h
    simp [parse_created_time, h]
  · intro s d hv hp
    subst hv
    have hne : s ≠ "" := by
      intro h
      subst h
      rw [show fromisoformat (pyReplace1 "" 'Z' "+00:00") = Except.error PyErr.valueError
          from rfl] at hp
      exact Except.noConfusion hp
    have ht : truthy (PyVal.str s) = true := by simp [truthy, hne]
    simp [parse_created_time, ht, hp]
  · intro s d hv h1 h2
    subst hv
    have hne : s ≠ "" := by
      intro h
      subst h
      rw [show strptime_tz "" = Except.error PyErr.valueError from rfl] at h2
      exact Except.noConfusion h2
    have ht : truthy (PyVal.str s) = true := by simp [truthy, hne]
    simp [parse_created_time, ht, h1, h2]
  · intro s hv h1 h2
    subst hv
    by_cases hne : s = ""
    · subst hne; rfl
    · have ht : truthy (PyVal.str s) = true := by simp [truthy, hne]
      simp only [parse_created_time, ht, if_true, h1, h2]
      cases h3 : fromisoformat s <;> simp [h3, Except.toOption]
  · intro ht hns
    cases v with
    | str s => exact absurd rfl (hns s)
    | none => rw [show truthy PyVal.none = false from rfl] at ht; exact Bool.noConfusion ht
    | bool b => simp [parse_created_time, ht]
    | num n => simp [parse_created_time, ht]
    | dict d => simp [parse_created_time, ht]
    | list l => simp [parse_created_time, ht]

/-- Witness for C9: a `Z`-suffixed Zoho timestamp parses via the first
attempt; a colon-less offset (rejected by the ISO parse) falls through to
`strptime`; an unparseable string and a `None` both yield `None`. -/
theorem c9_parse_fallback_witness :
    parse_created_time (PyVal.str "2024-01-01T09:00:00Z")
      = some { days := dateOrdinal 2024 1 1, tod := 32400000000, tz := some 0 }
    ∧ parse_created_time (PyVal.str "2024-01-01T10:00:00+0530")
      = some { days := dateOrdinal 2024 1 1, tod := 36000000000, tz := some 330 }
    ∧ parse_created_time (PyVal.str "not-a-date") = Option.none
    ∧ parse_created_time PyVal.none = Option.none := by
  refine ⟨?_, ?_, ?_, ?_⟩
  · exact (c9_parse_fallback (PyVal.str "2024-01-01T09:00:00Z")).2.1 _ _ rfl rfl
  · exact (c9_parse_fallback (PyVal.str "2024-01-01T10:00:00+0530")).2.2.1 _ _ rfl rfl rfl
  · have h := (c9_parse_fallback (PyVal.str "not-a-date")).2.2.2.1 "not-a-date" rfl rfl rfl
    rw [h]; rfl
  · exact (c9_parse_fallback _).1 (by decide)

/-- Loop invariant of the pagination `while` loop: if pages `j..N-1` all
continue the loop and page `N` stops it, the loop started at page `j`
returns its accumulator followed by the data of pages `j..N-1`, plus the
stopping page's own data when the stop was `more_records = false`, with the
error flag set exactly when the stop was a non-200 status. -/
theorem fetchLoop_stops (server : Nat → Page) (N : Nat) (hstop : ¬ pageOk server N)
    (hok : ∀ p, p < N → 1 ≤ p → pageOk server p) :
    ∀ fuel j acc, 1 ≤ j → j ≤ N → N - j < fuel →
    fetchLoop server fuel j acc = some (
      if (server N).status ≠ 200 then
        (acc ++ (List.range' j (N - j)).flatMap (fun p => (server p).data), true)
      else if (server N).data.isEmpty then
        (acc ++ (List.range' j (N - j)).flatMap (fun p => (server p).data), false)
      else
        (acc ++ (List.range' j (N - j)).flatMap (fun p => (server p).data)
            ++ (server N).data, false)) := by
  intro fuel
  induction fuel with
  | zero => intro j acc h1 h2 h3; omega
  | succ fuel ih =>
    intro j acc h1 h2 h3
    by_cases hj : j = N
    · subst hj
      simp only [Nat.sub_self, List.range'_zero, List.flatMap_nil, List.append_nil]
      by_cases hst : (server j).status = 200
      · by_cases hemp : (server j).data.isEmpty = true
        · simp [fetchLoop, hst, hemp]
        · have hmr : (server j).more_records = false := by
            rcases Bool.eq_false_or_eq_true (server j).more_records with h | h
            · exact absurd ⟨hst, Bool.eq_false_iff.mpr hemp, h⟩ hstop
            · exact h
          simp [fetchLoop, hst, hemp, hmr]
      · simp [fetchLoop, hst]
    · have hjN : j < N := by omega
      obtain ⟨hst, hemp, hmr⟩ := hok j hjN h1
      have hrec := ih (j + 1) (acc ++ (server j).data) (by omega) (by omega) (by omega)
      simp only [fetchLoop, hst, hemp, hmr]
      rw [if_pos trivial, hrec]
      have hNj : N - j = (N - (j + 1)) + 1 := by omega
      rw [hNj, List.range'_succ]
      simp [List.append_assoc]

/-- Claim C8: started with enough fuel (at least the index `N` of the first
stopping page), the paginated fetch terminates and returns the in-order
concatenation of the `data` arrays of the successful pages: all pages up to
and including the page that reports `more_records = false`, or all pages
strictly before an empty page; a non-2xx page aborts the fetch with the
error reported (flag `true`) and the previously accumulated records
returned as a partial result rather than dropped. -/
theorem c8_pagination (server : Nat → Page) (N fuel : Nat) (h1 : 1 ≤ N) (h2 : N ≤ fuel)
    (hok : ∀ p, p < N → 1 ≤ p → pageOk server p) (hstop : ¬ pageOk server N) :
    fetch_all_leads server fuel = some (
      if (server N).status ≠ 200 then (pagesData server (N - 1), true)
      else if (server N).data.isEmpty then (pagesData server (N - 1), false)
      else (pagesData server N, false)) := by
  unfold fetch_all_leads pagesData
  rw [fetchLoop_stops server N hstop hok fuel 1 [] le_rfl h1 (by omega)]
  have hr : List.range' 1 N = List.range' 1 (N - 1) ++ [N] := by
    have h3 : N = (N - 1) + 1 := by omega
    conv_lhs => rw [h3]
    rw [List.range'_concat]
    have h4 : 1 + 1 * (N - 1) = N := by omega
    rw [h4]
  rw [hr]
  simp [List.append_assoc]

/-- A three-page server for the C8 witness: two good pages, then a 500. -/
def serverC8 : Nat → Page := fun q =>
  if q = 1 then { status := 200, data := [[("id", PyVal.str "1")]], more_records := true }
  else if q = 2 then { status := 200, data := [[("id", PyVal.str "2")]], more_records := true }
  else { status := 500, data := [[("id", PyVal.str "3")]], more_records := false }

/-- Witness for C8: on `serverC8` the stop happens at page 3 with a non-2xx
status, and the fetch returns the two previously accumulated records with
the error flag set. -/
theorem c8_pagination_witness :
    ((∀ p, p < 3 → 1 ≤ p → pageOk serverC8 p) ∧ ¬ pageOk serverC8 3)
    ∧ fetch_all_leads serverC8 3
        = some ([[("id", PyVal.str "1")], [("id", PyVal.str "2")]], true) :=
  ⟨⟨by decide, by decide⟩,
   (c8_pagination serverC8 3 3 (by decide) (by decide) (by decide) (by decide)).trans rfl⟩

/-- On hashable (scalar) values, Python `==` coincides with structural
equality — the property pandas' grouping relies on. -/
theorem pyEq_iff (a b : PyVal) (ha : pyUnhashable a = false) :
    pyEq a b = true ↔ a = b := by
  cases a <;> cases b <;> simp_all [pyEq, pyUnhashable]

/-- A Boolean predicate and its negation partition a list's length. -/
theorem countP_pos_add_neg (l : List PyVal) (p : PyVal → Bool) :
    l.countP p + l.countP (fun a => !p a) = l.length := by
  induction l with
  | nil => rfl
  | cons a l ih =>
    rw [List.countP_cons, List.countP_cons]
    cases h : p a <;> simp [h] <;> omega

/-- Every representative produced by `dedupPy` comes from the input list
(stated with an explicit length bound to drive the recursion). -/
theorem mem_of_mem_dedupPy_aux :
    ∀ (n : Nat) (L : List PyVal), L.length ≤ n → ∀ x ∈ dedupPy L, x ∈ L := by
  intro n
  induction n with
  | zero =>
      intro L hL x hx
      cases L with
      | nil => simp [dedupPy] at hx
      | cons k ks => simp at hL
  | succ n ih =>
      intro L hL x hx
      cases L with
      | nil => simp [dedupPy] at hx
      | cons k ks =>
          simp only [dedupPy] at hx
          rcases List.mem_cons.mp hx with h | h
          · exact h ▸ List.mem_cons_self k ks
          · have hlen : (ks.filter (fun v => !pyEq v k)).length ≤ n := by
              have := List.length_filter_le (fun v => !pyEq v k) ks
              simp at hL
              omega
            have hmem := ih _ hlen x h
            exact List.mem_cons_of_mem _ (List.mem_of_mem_filter hmem)

/-- Membership form of `mem_of_mem_dedupPy_aux`. -/
theorem mem_of_mem_dedupPy (L : List PyVal) (x : PyVal) (h : x ∈ dedupPy L) : x ∈ L :=
  mem_of_mem_dedupPy_aux L.length L le_rfl x h

/-- Partition property of grouping: over a list of hashable values, the
occurrence counts of the distinct representatives sum to the list's length. -/
theorem dedupPy_sum_counts_aux :
    ∀ (n : Nat) (L : List PyVal), L.length ≤ n → (∀ v ∈ L, pyUnhashable v = false) →
    ((dedupPy L).map (fun k => L.countP (fun v => pyEq v k))).sum = L.length := by
  intro n
  induction n with
  | zero =>
      intro L hL hs
      cases L with
      | nil => simp [dedupPy]
      | cons k ks => simp at hL
  | succ n ih =>
      intro L hL hs
      cases L with
      | nil => simp [dedupPy]
      | cons k ks =>
          have hk : pyUnhashable k = false := hs k (List.mem_cons_self k ks)
          have hks : ∀ v ∈ ks, pyUnhashable v = false :=
            fun v hv => hs v (List.mem_cons_of_mem _ hv)
          have hs' : ∀ v ∈ ks.filter (fun v => !pyEq v k), pyUnhashable v = false :=
            fun v hv => hks v (List.mem_of_mem_filter hv)
          have hlen : (ks.filter (fun v => !pyEq v k)).length ≤ n := by
            have := List.length_filter_le (fun v => !pyEq v k) ks
            simp at hL
            omega
          have ihf := ih _ hlen hs'
          have hkk : pyEq k k = true := (pyEq_iff k k hk).mpr rfl
          have hmap : (dedupPy (ks.filter (fun v => !pyEq v k))).map
                (fun k2 => (k :: ks).countP (fun v => pyEq v k2))
              = (dedupPy (ks.filter (fun v => !pyEq v k))).map
                (fun k2 => (ks.filter (fun v => !pyEq v k)).countP (fun v => pyEq v k2)) := by
            apply List.map_congr_left
            intro k2 hk2
            have hk2m : k2 ∈ ks.filter (fun v => !pyEq v k) := mem_of_mem_dedupPy _ _ hk2
            have hk2ne : pyEq k2 k = false := by
              have h := List.of_mem_filter hk2m
              simpa using h
            have hneq : k2 ≠ k := by
              intro h
              rw [h, hkk] at hk2ne
              exact Bool.noConfusion hk2ne
            have hkk2 : pyEq k k2 = false := by
              rcases Bool.eq_false_or_eq_true (pyEq k k2) with h | h
              · exact absurd ((pyEq_iff k k2 hk).mp h).symm hneq
              · exact h
            rw [List.countP_cons, hkk2]
            simp only [Bool.false_eq_true, if_false, Nat.add_zero]
            rw [List.countP_filter, List.countP_eq_length_filter,
                List.countP_eq_length_filter]
            congr 1
            apply List.filter_congr
            intro v hv
            rcases Bool.eq_false_or_eq_true (pyEq v k2) with h | h
            · have hveq : v = k2 := (pyEq_iff v k2 (hks v hv)).mp h
              subst hveq
              simp [h, hk2ne]
            · simp [h]
          rw [show dedupPy (k :: ks) = k :: dedupPy (ks.filter (fun v => !pyEq v k)) from
                by simp [dedupPy]]
          rw [List.map_cons, List.sum_cons, hmap, ihf]
          rw [List.countP_cons, hkk, if_pos rfl]
          rw [← List.countP_eq_length_filter]
          have hpart := countP_pos_add_neg ks (fun v => pyEq v k)
          simp only [List.length_cons]
          omega

/-- Wrapper of `dedupPy_sum_counts_aux` without the length bound. -/
theorem dedupPy_sum_counts (L : List PyVal) (hs : ∀ v ∈ L, pyUnhashable v = false) :
    ((dedupPy L).map (fun k => L.countP (fun v => pyEq v k))).sum = L.length :=
  dedupPy_sum_counts_aux L.length L le_rfl hs

/-- Claim C7, counterexample: a normalized lead whose raw Owner object
carries `name: null` gets a `None` owner display value; grouping by owner
then drops the row (`dropna`), the aggregation returns no groups, and the
counts sum to 0 while the input has 1 lead — the claimed equality between
the summed counts and the input size fails. -/
theorem c7_sum_counterexample :
    group_counts [process_lead [("Owner", PyVal.dict [("name", PyVal.none)])]]
        (fun r => r.leadOwner) = .ok []
    ∧ [process_lead [("Owner", PyVal.dict [("name", PyVal.none)])]].length = 1 := by
  refine ⟨?_, rfl⟩
  simp [group_counts, dedupPy, process_lead, resolve_owner, pyGetD, pyIsNA, pyUnhashable]

/-- Claim C7 as amended: provided every grouping key is hashable and
non-null and every row's `ID` is non-null — which holds for all ordinary
leads but can fail for records with null fields — the per-group counts of
`group_by` sum to the number of input rows, for every dimension selector. -/
theorem c7_sum_amended (rows : List Row) (dim : Row → PyVal)
    (h : ∀ r ∈ rows, pyUnhashable (dim r) = false ∧ pyIsNA (dim r) = false
          ∧ pyIsNA r.id = false) :
    ∃ gs, group_counts rows dim = .ok gs ∧ (gs.map Prod.snd).sum = rows.length := by
  have hany : rows.any (fun r => pyUnhashable (dim r)) = false := by
    simp only [List.any_eq_false]
    intro r hr
    simp [(h r hr).1]
  have hkept : rows.filter (fun r => !pyIsNA (dim r)) = rows := by
    apply List.filter_eq_self.mpr
    intro r hr
    simp [(h r hr).2.1]
  have hgc : group_counts rows dim
      = .ok ((dedupPy (rows.map dim)).map (fun k =>
          (k, (rows.filter (fun r => pyEq (dim r) k && !pyIsNA r.id)).length))) := by
    simp [group_counts, hany, hkept]
  refine ⟨_, hgc, ?_⟩
  rw [List.map_map]
  have hmap : (dedupPy (rows.map dim)).map
        ((fun p => p.2) ∘ (fun k =>
          (k, (rows.filter (fun r => pyEq (dim r) k && !pyIsNA r.id)).length)))
      = (dedupPy (rows.map dim)).map
        (fun k => (rows.map dim).countP (fun v => pyEq v k)) := by
    apply List.map_congr_left
    intro k hk
    have hfc : ∀ r ∈ rows, (pyEq (dim r) k && !pyIsNA r.id) = pyEq (dim r) k := by
      intro r hr
      simp [(h r hr).2.2]
    simp only [Function.comp_apply]
    rw [List.filter_congr hfc, ← List.countP_eq_length_filter, List.countP_map]
    rfl
  rw [hmap, dedupPy_sum_counts]
  · exact List.length_map rows dim
  · intro v hv
    obtain ⟨r, hr, rfl⟩ := List.mem_map.mp hv
    exact (h r hr).1

/-- Three normalized leads for the C7 witness: two owned by `A`, one by
`B`, all with non-null ids and owners. -/
def rowsC7 : List Row :=
  [process_lead [("id", PyVal.str "1"), ("Owner", PyVal.str "A")],
   process_lead [("id", PyVal.str "2"), ("Owner", PyVal.str "A")],
   process_lead [("id", PyVal.str "3"), ("Owner", PyVal.str "B")]]

/-- Witness for C7 as amended: on `rowsC7`, grouped by owner, the
hypotheses hold and the counts sum to 3. -/
theorem c7_sum_amended_witness :
    (∀ r ∈ rowsC7, pyUnhashable r.leadOwner = false ∧ pyIsNA r.leadOwner = false
        ∧ pyIsNA r.id = false)
    ∧ ∃ gs, group_counts rowsC7 (fun r => r.leadOwner) = .ok gs
        ∧ (gs.map Prod.snd).sum = rowsC7.length :=
  ⟨by decide, c7_sum_amended rowsC7 (fun r => r.leadOwner) (by decide)⟩
